import Mathlib

/-
  Shallow embedding of drivers/parisc/iosapic.c (Linux 3.8, PA-RISC I/O SAPIC
  driver).  Pure functions of the driver are translated to Lean functions;
  global mutable state (the routing table, the allocator, per-line vector
  state) is threaded explicitly; MMIO side effects are modelled as event
  traces; fatal assertions (BUG_ON / panic) and NULL-pointer faults are
  modelled as explicit outcome constructors.
-/

namespace Iosapic

/- Register layout constants, from iosapic.c. -/

def IOSAPIC_REG_SELECT : Nat := 0x00

def IOSAPIC_REG_WINDOW : Nat := 0x10

def IOSAPIC_REG_EOI : Nat := 0x40

def IOSAPIC_REG_VERSION : Nat := 0x1

def IOSAPIC_MAX_ENTRY_MASK : Nat := 0x00ff0000

def IOSAPIC_MAX_ENTRY_SHIFT : Nat := 0x10

/- Bits in the low word of an I/O SAPIC redirection-table entry (iosapic.c). -/

def IOSAPIC_IRDT_ENABLE : Nat := 0x10000

def IOSAPIC_IRDT_PO_LOW : Nat := 0x02000

def IOSAPIC_IRDT_LEVEL_TRIG : Nat := 0x08000

/- PDC firmware success status. -/

def PDC_OK : Int := 0

/-- Modelled from the spec: the IRT entry tag constants and field masks come
from iosapic_private.h, which is not under src.  The spec only says the
type, length and interrupt-type tags must equal expected constants; the
concrete values used here are immaterial to every claim (all statements are
parametric in the table contents and use the same constants on both sides). -/
def IRT_IOSAPIC_TYPE : Nat := 139

/-- Modelled from the spec: expected entry-length tag (iosapic_private.h). -/
def IRT_IOSAPIC_LENGTH : Nat := 16

/-- Modelled from the spec: expected interrupt-type tag (iosapic_private.h). -/
def IRT_VECTORED_INTR : Nat := 0

/-- Modelled from the spec: mask selecting the polarity bit of the
polarity_trigger field (iosapic_private.h). -/
def IRT_PO_MASK : Nat := 1

/-- Modelled from the spec: polarity-field value meaning active low. -/
def IRT_ACTIVE_LO : Nat := 1

/-- Modelled from the spec: shift of the trigger bit in polarity_trigger. -/
def IRT_EL_SHIFT : Nat := 1

/-- Modelled from the spec: mask of the trigger bit after shifting. -/
def IRT_EL_MASK : Nat := 1

/-- Modelled from the spec: trigger-field value meaning level triggered. -/
def IRT_LEVEL_TRIG : Nat := 1

/-- Modelled from the spec: shift of the slot number inside the
src_bus_irq_devno field (iosapic_private.h). -/
def IRT_DEV_SHIFT : Nat := 2

/-- Modelled from the spec: mask of the encoded slot and pin inside the
src_bus_irq_devno field, ((0x1f shifted left by 2) or 0x3). -/
def IRT_IRQ_DEVNO_MASK : Nat := 0x7f

/-- One row of the interrupt routing table (struct irt_entry).  Byte-sized
fields are Nats holding u8 values; dest_iosapic_addr is the u64 destination
controller address. -/
structure IrtEntry where
  entry_type : Nat
  entry_length : Nat
  interrupt_type : Nat
  polarity_trigger : Nat
  src_bus_irq_devno : Nat
  src_bus_id : Nat
  src_seg_id : Nat
  dest_iosapic_intin : Nat
  dest_iosapic_addr : Nat
deriving DecidableEq

/-- COMPARE_IRTE_ADDR from iosapic.c: on CONFIG_64BIT the destination address
is compared with the hpa directly; on 32-bit kernels the hpa (an unsigned
long promoted to u64) is padded with an all-ones upper half first. -/
def compareIrteAddr (cfg64 : Bool) (dest hpa : Nat) : Bool :=
  if cfg64 then dest == hpa else dest == (hpa ||| 0xffffffff00000000)

/-- The scan loop of irt_find_irqline: entries whose entry_type,
entry_length or interrupt_type tag differs from the expected constant are
skipped (continue), then the destination address and the masked
src_bus_irq_devno are compared; the first entry passing every check is
returned. -/
def irtScan (cfg64 : Bool) (hpa irq_devno : Nat) : List IrtEntry → Option IrtEntry
  | [] => none
  | e :: rest =>
    if e.entry_type ≠ IRT_IOSAPIC_TYPE then irtScan cfg64 hpa irq_devno rest
    else if e.entry_length ≠ IRT_IOSAPIC_LENGTH then irtScan cfg64 hpa irq_devno rest
    else if e.interrupt_type ≠ IRT_VECTORED_INTR then irtScan cfg64 hpa irq_devno rest
    else if !compareIrteAddr cfg64 e.dest_iosapic_addr hpa then irtScan cfg64 hpa irq_devno rest
    else if (e.src_bus_irq_devno &&& IRT_IRQ_DEVNO_MASK) ≠ irq_devno then irtScan cfg64 hpa irq_devno rest
    else some e

/-- irt_find_irqline from iosapic.c.  irq_devno is the u8 value
(slot shifted left by IRT_DEV_SHIFT) or (pin - 1); the u8 store truncates
mod 256.  Callers guarantee pin is at least 1 (iosapic_xlate_pin returns
early on a zero pin), so Nat subtraction agrees with the C int arithmetic. -/
def irt_find_irqline (cfg64 : Bool) (table : List IrtEntry) (hpa slot pin : Nat) : Option IrtEntry :=
  irtScan cfg64 hpa (((slot <<< IRT_DEV_SHIFT) ||| (pin - 1)) % 256) table

/-- The match predicate of one scan step of irt_find_irqline, as a single
boolean: all three tags equal the expected constants, the destination
address matches under the width-aware comparison, and the masked
src_bus_irq_devno equals the encoded slot and pin. -/
def irtEntryMatches (cfg64 : Bool) (hpa slot pin : Nat) (e : IrtEntry) : Bool :=
  (e.entry_type == IRT_IOSAPIC_TYPE) &&
  (e.entry_length == IRT_IOSAPIC_LENGTH) &&
  (e.interrupt_type == IRT_VECTORED_INTR) &&
  compareIrteAddr cfg64 e.dest_iosapic_addr hpa &&
  ((e.src_bus_irq_devno &&& IRT_IRQ_DEVNO_MASK) == ((slot <<< IRT_DEV_SHIFT) ||| (pin - 1)) % 256)

/-- The firmware responses seen by iosapic_load_irt: whether is_pdc_pat()
holds, the status and value returned by the size query and the fill query of
each protocol (pdc_pat_get_irt_size / pdc_pat_get_irt on PAT platforms,
pdc_pci_irt_size / pdc_pci_irt on legacy ones), the table contents the fill
call would deposit, and whether the kmalloc of the table buffer succeeds. -/
structure Firmware where
  pat : Bool
  patSizeStatus : Int
  patSize : Nat
  patFillStatus : Int
  patTable : List IrtEntry
  legacySizeStatus : Int
  legacySize : Nat
  legacyFillStatus : Int
  legacyTable : List IrtEntry
  allocOk : Bool

/-- Outcome of iosapic_load_irt.  halted models a BUG_ON firing (fatal
kernel assertion); returned gives the int return value, the table written
through the out pointer (none when the pointer is left untouched), and
whether a WARN_ON fired (non-fatal, execution continues). -/
inductive LoadOutcome where
  | halted : LoadOutcome
  | returned (count : Nat) (written : Option (List IrtEntry)) (warned : Bool) : LoadOutcome
deriving DecidableEq

/-- iosapic_load_irt from iosapic.c.  PAT path: BUG_ON a failed size query,
BUG_ON zero entries, soft return 0 on allocation failure, then the fill
query only WARNs on failure and the table is returned regardless.  Legacy
path: an already present table (irtCellPrior) or a failed size query soft
returns 0; zero entries is BUG_ON; allocation failure soft returns 0; a
failed fill query is BUG_ON. -/
def iosapic_load_irt (fw : Firmware) (irtCellPrior : Option (List IrtEntry)) : LoadOutcome :=
  if fw.pat then
    if fw.patSizeStatus ≠ PDC_OK then .halted
    else if fw.patSize = 0 then .halted
    else if !fw.allocOk then .returned 0 none false
    else .returned fw.patSize (some fw.patTable) (decide (fw.patFillStatus ≠ PDC_OK))
  else
    if irtCellPrior.isSome then .returned 0 none false
    else if fw.legacySizeStatus ≠ PDC_OK then .returned 0 none false
    else if fw.legacySize = 0 then .halted
    else if !fw.allocOk then .returned 0 none false
    else if fw.legacyFillStatus ≠ PDC_OK then .halted
    else .returned fw.legacySize (some fw.legacyTable) false

/-- iosapic_init from iosapic.c, restricted to its table-loading effect:
irt_num_entry takes the return value of iosapic_load_irt and irt_cell is
cleared to NULL whenever that count is zero.  Result none models the
startup path halting inside iosapic_load_irt; otherwise the pair is the
final (irt_num_entry, irt_cell) state. -/
def iosapic_init (fw : Firmware) : Option (Nat × Option (List IrtEntry)) :=
  match iosapic_load_irt fw none with
  | .halted => none
  | .returned n w _ => some (if n = 0 then (0, none) else (n, w))

/-- Per redirection-line state (struct vector_info).  The iosapic back
pointer is modelled by the owning controller's mapped register base
(vi.iosapic.addr), which is all the register path dereferences through it. -/
structure VectorInfo where
  irqline : Nat
  iosapic_addr : Nat
  irte : Option IrtEntry
  txn_irq : Int
  txn_addr : Nat
  txn_data : Nat
  eoi_addr : Nat
  eoi_data : Nat
deriving DecidableEq

/-- A zero-initialized vector_info, as produced by kcalloc. -/
def viZero : VectorInfo :=
  { irqline := 0, iosapic_addr := 0, irte := none, txn_irq := 0,
    txn_addr := 0, txn_data := 0, eoi_addr := 0, eoi_data := 0 }

/-- Per-controller state (struct iosapic_info): hardware base address,
mapped register window address, cached version word, derived line count and
the owned per-line vector array. -/
structure IsiState where
  isi_hpa : Nat
  addr : Nat
  isi_version : Nat
  isi_num_vectors : Nat
  isi_vector : List VectorInfo
deriving DecidableEq

/-- iosapic_register from iosapic.c.  The table is scanned for the first
entry whose destination address matches hpa under COMPARE_IRTE_ADDR (the
WARN_ON on the entry type tag has no control effect); if the scan runs off
the end — which includes the empty-table case — registration returns NULL.
Otherwise the iosapic_info is allocated (kzalloc; modelled by allocIsi),
the register window is mapped (ioremap; its virtual address is the mapAddr
parameter), the version word is read from hardware (the version parameter),
the line count is the max-entry field of the version word plus one, and the
vector array is allocated (kcalloc; allocVec) with each entry initialized
to its line index and the back reference. -/
def iosapic_register (cfg64 : Bool) (table : List IrtEntry) (version mapAddr : Nat)
    (allocIsi allocVec : Bool) (hpa : Nat) : Option IsiState :=
  match table.find? (fun e => compareIrteAddr cfg64 e.dest_iosapic_addr hpa) with
  | none => none
  | some _ =>
    if !allocIsi then none
    else if !allocVec then none
    else
      let nv := ((version &&& IOSAPIC_MAX_ENTRY_MASK) >>> IOSAPIC_MAX_ENTRY_SHIFT) + 1
      some { isi_hpa := hpa, addr := mapAddr, isi_version := version,
             isi_num_vectors := nv,
             isi_vector := (List.range nv).map
               (fun cnt => { viZero with irqline := cnt, iosapic_addr := mapAddr }) }

/-- The PCI bus hierarchy as seen by iosapic_xlate_pin: a bus is either the
root bus (bus with no parent) or a secondary bus created by a bridge device
sitting on a parent bus; selfDevfn is the devfn of that bridge (p.self). -/
inductive PciBus where
  | root : PciBus
  | bridged (parent : PciBus) (selfDevfn : Nat) : PciBus
deriving DecidableEq

/-- The while loop of iosapic_xlate_pin: starting from a bus that has a
parent, climb while the parent itself has a parent, and return the devfn of
the self bridge of the topmost non-root bus. -/
def hostBridgeSlotDevfn : PciBus → Nat
  | .root => 0
  | .bridged .root sd => sd
  | .bridged (.bridged gp sd2) _ => hostBridgeSlotDevfn (.bridged gp sd2)

/-- A PCI device as consumed by this driver: its devfn, its bus, and the
value its config-space PCI_INTERRUPT_PIN byte reads as. -/
structure PciDev where
  devfn : Nat
  bus : PciBus
  intr_pin : Nat
deriving DecidableEq

/-- PCI_SLOT(devfn): bits 7..3 of the devfn. -/
def PCI_SLOT (devfn : Nat) : Nat := (devfn >>> 3) &&& 0x1f

/-- Modelled from the spec: pci_swizzle_interrupt_pin lives in the PCI core,
outside src.  The spec gives the skew as effective_pin equal to
(pin + device_number - 1) mod 4, with the mod result mapped back into the
1..4 pin range by adding one. -/
def pci_swizzle_interrupt_pin (dev : PciDev) (pin : Nat) : Nat :=
  ((pin + PCI_SLOT dev.devfn - 1) % 4) + 1

/-- iosapic_xlate_pin from iosapic.c: read the interrupt-pin byte; zero
means the device does not use line interrupts (returns NULL).  If the bus
has a parent, the pin is swizzled exactly once and the lookup slot is the
slot of the topmost bridge below the root; otherwise the device's own slot
and unskewed pin are used.  Delegates to irt_find_irqline. -/
def iosapic_xlate_pin (cfg64 : Bool) (table : List IrtEntry) (isi_hpa : Nat)
    (dev : PciDev) : Option IrtEntry :=
  if dev.intr_pin = 0 then none
  else
    match dev.bus with
    | .root => irt_find_irqline cfg64 table isi_hpa (PCI_SLOT dev.devfn) dev.intr_pin
    | .bridged p sd =>
      irt_find_irqline cfg64 table isi_hpa
        (PCI_SLOT (hostBridgeSlotDevfn (.bridged p sd)))
        (pci_swizzle_interrupt_pin dev dev.intr_pin)

/-- iosapic_set_irt_data from iosapic.c.  Returns none when the line is
unbound (the source would dereference a NULL irte).  The low word is the
mode bits (active-low polarity bit, level-trigger bit, each taken from the
routing entry's polarity_trigger field) or-ed with the u32 cast of
txn_data; the high word is the u32 cast of txn_addr verbatim on PAT
platforms and the repacked id/eid form on legacy platforms. -/
def iosapic_set_irt_data (pat : Bool) (vi : VectorInfo) : Option (Nat × Nat) :=
  match vi.irte with
  | none => none
  | some p =>
    let mode1 := if (p.polarity_trigger &&& IRT_PO_MASK) = IRT_ACTIVE_LO then IOSAPIC_IRDT_PO_LOW else 0
    let mode := mode1 ||| (if ((p.polarity_trigger >>> IRT_EL_SHIFT) &&& IRT_EL_MASK) = IRT_LEVEL_TRIG
                            then IOSAPIC_IRDT_LEVEL_TRIG else 0)
    let dp0 := mode ||| (vi.txn_data % 2 ^ 32)
    let dp1 := if pat then vi.txn_addr % 2 ^ 32
               else (((vi.txn_addr % 2 ^ 32) &&& 0x0ff00000) >>> 4) |||
                    (((vi.txn_addr % 2 ^ 32) &&& 0x000ff000) <<< 12)
    some (dp0, dp1)

/-- iosapic_mask_irq, reduced to its register arithmetic: given the two
words read back from the redirection entry, it sets the enable (mask) bit
in the low word and writes both words back. -/
def iosapic_mask_irq_words (r0 r1 : Nat) : Nat × Nat :=
  (r0 ||| IOSAPIC_IRDT_ENABLE, r1)

/-- One MMIO operation: a 32-bit write to an address, or a read from one. -/
inductive MmioEv where
  | write (addr val : Nat) : MmioEv
  | read (addr : Nat) : MmioEv
deriving DecidableEq

/-- iosapic_write from iosapic.c: select the register, then write the value
through the access window. -/
def iosapic_write_tr (base reg val : Nat) : List MmioEv :=
  [.write (base + IOSAPIC_REG_SELECT) reg, .write (base + IOSAPIC_REG_WINDOW) val]

/-- IOSAPIC_IRDT_ENTRY(idx) register number. -/
def IOSAPIC_IRDT_ENTRY (idx : Nat) : Nat := 0x10 + idx * 2

/-- IOSAPIC_IRDT_ENTRY_HI(idx) register number. -/
def IOSAPIC_IRDT_ENTRY_HI (idx : Nat) : Nat := 0x11 + idx * 2

/-- iosapic_wr_irt_entry from iosapic.c as its MMIO trace: write the low
word, read the window to flush, write the high word, read the window to
flush. -/
def iosapic_wr_irt_entry_tr (base line d0 d1 : Nat) : List MmioEv :=
  iosapic_write_tr base (IOSAPIC_IRDT_ENTRY line) d0 ++
  [.read (base + IOSAPIC_REG_WINDOW)] ++
  iosapic_write_tr base (IOSAPIC_IRDT_ENTRY_HI line) d1 ++
  [.read (base + IOSAPIC_REG_WINDOW)]

/-- iosapic_unmask_irq from iosapic.c as its MMIO trace: recompute both
words via iosapic_set_irt_data, program the redirection entry, then
unconditionally write the stored EOI data to the stored EOI address
(iosapic_eoi).  none models the NULL irte dereference on an unbound line. -/
def iosapic_unmask_irq_tr (pat : Bool) (vi : VectorInfo) : Option (List MmioEv) :=
  match iosapic_set_irt_data pat vi with
  | none => none
  | some (d0, d1) =>
    some (iosapic_wr_irt_entry_tr vi.iosapic_addr vi.irqline d0 d1 ++
          [.write vi.eoi_addr vi.eoi_data])

/-- Scanner for the write-flush discipline: pending records whether a write
to the access window has been issued with no window read after it; a second
window write while pending violates the discipline. -/
def flushSeparated (win : Nat) : List MmioEv → Bool → Bool
  | [], _ => true
  | .write a _ :: rest, pending =>
    if a = win then !pending && flushSeparated win rest true
    else flushSeparated win rest pending
  | .read a :: rest, pending =>
    if a = win then flushSeparated win rest false
    else flushSeparated win rest pending

/-- Outcome of iosapic_set_affinity_irq: fault models the NULL irte
dereference on an unbound line; failed is the early return -1 when the
destination cpu does not resolve (no register write happens); ok carries
the updated vector state and the two words written back to the entry. -/
inductive AffinityResult where
  | fault : AffinityResult
  | failed : AffinityResult
  | ok (vi : VectorInfo) (w0 w1 : Nat) : AffinityResult
deriving DecidableEq

/-- iosapic_set_affinity_irq from iosapic.c.  destCpu is the result of
cpu_check_affinity and newTxnAddr the result of txn_affinity_addr (both
external); r0 and r1 are the words the entry read returns.  On success the
code updates txn_addr, reads the entry, recomputes only the high word via
iosapic_set_irt_data (the low word goes to a dummy), and writes back the
read low word together with the recomputed high word. -/
def iosapic_set_affinity_irq (pat : Bool) (destCpu : Int) (newTxnAddr : Nat)
    (vi : VectorInfo) (r0 r1 : Nat) : AffinityResult :=
  if destCpu < 0 then .failed
  else
    let vi2 := { vi with txn_addr := newTxnAddr }
    match iosapic_set_irt_data pat vi2 with
    | none => .fault
    | some (_, d1) => .ok vi2 r0 d1

/-- The external processor-interrupt allocator (txn_alloc_irq,
txn_alloc_addr, txn_alloc_data), modelled abstractly: nextIrq is what the
next txn_alloc_irq call returns, step how the allocator state advances, and
addrOf / dataOf give the target address and message data for an irq. -/
structure TxnAlloc where
  nextIrq : Int
  step : Int
  addrOf : Int → Nat
  dataOf : Int → Nat

/-- Allocator state after one txn_alloc_irq call. -/
def txnBump (a : TxnAlloc) : TxnAlloc := { a with nextIrq := a.nextIrq + a.step }

/-- cpu_to_le32 on big-endian PA-RISC: a 32-bit byte swap. -/
def swab32 (x : Nat) : Nat :=
  let y := x % 2 ^ 32
  ((y &&& 0xff) <<< 24) ||| ((y &&& 0xff00) <<< 8) ||| ((y &&& 0xff0000) >>> 8) ||| (y >>> 24)

/-- The vector_info produced by the binding branch of iosapic_fixup_irq:
the routing entry is stored, the processor irq and its target address and
data are taken from the allocator, and the EOI address and byte-swapped EOI
data are stored. -/
def fixupBoundVi (a : TxnAlloc) (isi : IsiState) (irte : IrtEntry) (vi : VectorInfo) : VectorInfo :=
  { vi with
    irte := some irte,
    txn_irq := a.nextIrq,
    txn_addr := a.addrOf a.nextIrq,
    txn_data := a.dataOf a.nextIrq,
    eoi_addr := isi.addr + IOSAPIC_REG_EOI,
    eoi_data := swab32 (a.dataOf a.nextIrq) }

/-- Controller state after the binding branch of iosapic_fixup_irq runs for
routing entry irte: the vector slot of the entry's destination line is
replaced by its bound version. -/
def fixupBoundIsi (a : TxnAlloc) (isi : IsiState) (irte : IrtEntry) : IsiState :=
  { isi with
    isi_vector := isi.isi_vector.set irte.dest_iosapic_intin
      (fixupBoundVi a isi irte (isi.isi_vector.getD irte.dest_iosapic_intin viZero)) }

/-- Outcome of iosapic_fixup_irq: fatal models the panic on a failed
txn_alloc_irq; done carries the allocator state, controller state and the
returned processor irq (-1 when no routing entry was found). -/
inductive FixupResult where
  | fatal : FixupResult
  | done (a : TxnAlloc) (isi : IsiState) (irq : Int) : FixupResult

/-- iosapic_fixup_irq from iosapic.c (the NULL isi guard and the
CONFIG_SUPERIO quirk, which is compiled out here, aside).  The pin is
translated to a routing entry; none returns -1 with no state change.  The
vector slot of the entry's destination line is fetched; if its irte is
already set the binding branch is skipped entirely and the existing
txn_irq is returned.  Otherwise the entry is stored, a processor irq is
allocated (panic if the allocator refuses), its address and data are
recorded together with the EOI pair, and the irq is claimed
(cpu_claim_irq, an external registration with no further state here). -/
def iosapic_fixup_irq (cfg64 : Bool) (table : List IrtEntry) (a : TxnAlloc)
    (isi : IsiState) (dev : PciDev) : FixupResult :=
  match iosapic_xlate_pin cfg64 table isi.isi_hpa dev with
  | none => .done a isi (-1)
  | some irte =>
    let vi := isi.isi_vector.getD irte.dest_iosapic_intin viZero
    if vi.irte.isSome then .done a isi vi.txn_irq
    else if a.nextIrq < 0 then .fatal
    else .done (txnBump a) (fixupBoundIsi a isi irte) a.nextIrq

/- Concrete instances used to exercise the model at specific inputs. -/

/-- A well-formed routing entry: expected tags, active-low level-triggered,
slot 3 pin 2 encoding (13 = (3 shifted left by 2) or 1), destination line 0,
destination controller address 0x1000. -/
def entA : IrtEntry :=
  { entry_type := 139, entry_length := 16, interrupt_type := 0,
    polarity_trigger := 3, src_bus_irq_devno := 13, src_bus_id := 0,
    src_seg_id := 0, dest_iosapic_intin := 0, dest_iosapic_addr := 0x1000 }

/-- A bound vector state on line 3 of a controller mapped at 0x3000. -/
def viA : VectorInfo :=
  { irqline := 3, iosapic_addr := 0x3000, irte := some entA, txn_irq := 64,
    txn_addr := 0xfee0, txn_data := 0x11, eoi_addr := 0x3040, eoi_data := 0x11 }

/-- A device on the root bus, slot 3 (devfn 24), pin 2. -/
def devA : PciDev := { devfn := 24, bus := .root, intr_pin := 2 }

/-- A device with interrupt-pin byte 0. -/
def devNoPin : PciDev := { devfn := 24, bus := .root, intr_pin := 0 }

/-- A device two bridge hops below the root: the topmost bridge sits at
devfn 40 (slot 5) on the root bus. -/
def devBridged : PciDev :=
  { devfn := 17, bus := .bridged (.bridged .root 40) 8, intr_pin := 2 }

/-- A freshly registered controller at hpa 0x1000 with two redirection
lines, none bound yet. -/
def isiA : IsiState :=
  { isi_hpa := 0x1000, addr := 0x3000, isi_version := 0x10000,
    isi_num_vectors := 2, isi_vector := [viZero, viZero] }

/-- An allocator whose next processor irq is 64. -/
def allocA : TxnAlloc :=
  { nextIrq := 64, step := 8, addrOf := fun _ => 0xfee0, dataOf := fun _ => 0x11 }

/-- PAT firmware whose size query reports not supported. -/
def fwPatNoSupp : Firmware :=
  { pat := true, patSizeStatus := -1, patSize := 0, patFillStatus := 0,
    patTable := [], legacySizeStatus := 0, legacySize := 0,
    legacyFillStatus := 0, legacyTable := [], allocOk := true }

/-- PAT firmware reporting zero table entries. -/
def fwPatZero : Firmware :=
  { pat := true, patSizeStatus := 0, patSize := 0, patFillStatus := 0,
    patTable := [], legacySizeStatus := 0, legacySize := 0,
    legacyFillStatus := 0, legacyTable := [], allocOk := true }

/-- PAT firmware whose size query succeeds with one entry but whose fill
query fails. -/
def fwPatFillFail : Firmware :=
  { pat := true, patSizeStatus := 0, patSize := 1, patFillStatus := -1,
    patTable := [], legacySizeStatus := 0, legacySize := 0,
    legacyFillStatus := 0, legacyTable := [], allocOk := true }

/-- Legacy firmware whose size query reports not supported. -/
def fwLegacyNoSupp : Firmware :=
  { pat := false, patSizeStatus := 0, patSize := 0, patFillStatus := 0,
    patTable := [], legacySizeStatus := -1, legacySize := 0,
    legacyFillStatus := 0, legacyTable := [], allocOk := true }

/-- Legacy firmware reporting zero table entries. -/
def fwLegacyZero : Firmware :=
  { pat := false, patSizeStatus := 0, patSize := 0, patFillStatus := 0,
    patTable := [], legacySizeStatus := 0, legacySize := 0,
    legacyFillStatus := 0, legacyTable := [], allocOk := true }

/-- Legacy firmware whose size query succeeds with one entry but whose fill
query fails. -/
def fwLegacyFillFail : Firmware :=
  { pat := false, patSizeStatus := 0, patSize := 0, patFillStatus := 0,
    patTable := [], legacySizeStatus := 0, legacySize := 1,
    legacyFillStatus := -1, legacyTable := [entA], allocOk := true }

/- ===================== helper lemmas ===================== -/

/-- The scan loop of irt_find_irqline is a first-match search for the
conjunction of its five checks. -/
theorem irtScan_eq_find (cfg64 : Bool) (hpa dv : Nat) (l : List IrtEntry) :
    irtScan cfg64 hpa dv l = l.find? (fun e =>
      (e.entry_type == IRT_IOSAPIC_TYPE) &&
      (e.entry_length == IRT_IOSAPIC_LENGTH) &&
      (e.interrupt_type == IRT_VECTORED_INTR) &&
      compareIrteAddr cfg64 e.dest_iosapic_addr hpa &&
      ((e.src_bus_irq_devno &&& IRT_IRQ_DEVNO_MASK) == dv)) := by
  induction l with
  | nil => rfl
  | cons e rest ih =>
    simp only [irtScan]
    split_ifs with h1 h2 h3 h4 h5
    · rw [ih, List.find?_cons_of_neg]
      simp [beq_eq_false_iff_ne, h1]
    · rw [ih, List.find?_cons_of_neg]
      simp [beq_eq_false_iff_ne, h2]
    · rw [ih, List.find?_cons_of_neg]
      simp [beq_eq_false_iff_ne, h3]
    · rw [ih, List.find?_cons_of_neg]
      simp_all
    · rw [ih, List.find?_cons_of_neg]
      simp [beq_eq_false_iff_ne, h5]
    · rw [List.find?_cons_of_pos]
      simp_all

/-- A first-match search succeeds exactly when some element satisfies the
predicate. -/
theorem find_isSome_eq_any {α : Type} (p : α → Bool) (l : List α) :
    (l.find? p).isSome = l.any p := by
  induction l with
  | nil => rfl
  | cons a t ih =>
    simp only [List.find?, List.any]
    cases h : p a <;> simp [h, ih]

/-- Reading back an in-range updated list slot yields the written value. -/
theorem getD_set_self {α : Type} (l : List α) (i : Nat) (v d : α)
    (h : i < l.length) : (l.set i v).getD i d = v := by
  induction l generalizing i with
  | nil => simp at h
  | cons a t ih =>
    cases i with
    | zero => rfl
    | succ n => exact ih n (by simpa using h)

/- ===================== claim theorems ===================== -/

/-- C2: for every loaded routing table and every lookup with pin at least 1,
irt_find_irqline returns the first entry in table order whose three tags
equal the expected constants, whose destination address matches under the
width-aware comparison and whose masked src_bus_irq_devno equals the
encoded slot/pin value; it returns none exactly when no such entry exists
(that is List.find? semantics), and any entry it returns satisfies every
check, so a tag-mismatched entry is never returned. -/
theorem irt_find_irqline_first_match (cfg64 : Bool) (table : List IrtEntry)
    (hpa slot pin : Nat) (_hpin : 1 ≤ pin) :
    irt_find_irqline cfg64 table hpa slot pin
      = table.find? (irtEntryMatches cfg64 hpa slot pin) ∧
    Option.all (irtEntryMatches cfg64 hpa slot pin)
      (irt_find_irqline cfg64 table hpa slot pin) = true := by
  have hmain : irt_find_irqline cfg64 table hpa slot pin
      = table.find? (irtEntryMatches cfg64 hpa slot pin) := by
    rw [irt_find_irqline, irtScan_eq_find]
    rfl
  refine ⟨hmain, ?_⟩
  rw [hmain]
  cases h : table.find? (irtEntryMatches cfg64 hpa slot pin) with
  | none => rfl
  | some e => simpa [Option.all] using List.find?_some h

/-- C2 witness: the lookup at controller 0x1000, slot 3, pin 2 over a
one-entry table. -/
theorem irt_find_irqline_first_match_witness :
    irt_find_irqline true [entA] 0x1000 3 2
      = [entA].find? (irtEntryMatches true 0x1000 3 2) ∧
    Option.all (irtEntryMatches true 0x1000 3 2)
      (irt_find_irqline true [entA] 0x1000 3 2) = true :=
  irt_find_irqline_first_match true [entA] 0x1000 3 2 (by decide)

/-- C1 counterexample: with an empty routing table, iosapic_register fails
(returns none) for controller address 0x1000 even though every allocation
succeeds, contradicting the claim that registration on an empty table
succeeds unconditionally. -/
theorem iosapic_register_empty_table_fails :
    iosapic_register true [] 0 0 true true 0x1000 = none := rfl

/-- C1 amended: registration (with all allocations succeeding) returns a
controller instance exactly when some table entry's destination address
matches the hpa under the width-aware comparison; in particular on an
empty table registration always returns none. -/
theorem iosapic_register_succeeds_iff_addr_match (cfg64 : Bool)
    (table : List IrtEntry) (version mapAddr hpa : Nat) :
    (iosapic_register cfg64 table version mapAddr true true hpa).isSome
      = table.any (fun e => compareIrteAddr cfg64 e.dest_iosapic_addr hpa) ∧
    iosapic_register cfg64 [] version mapAddr true true hpa = none := by
  constructor
  · rw [← find_isSome_eq_any]
    cases h : table.find? (fun e => compareIrteAddr cfg64 e.dest_iosapic_addr hpa) <;>
      simp [iosapic_register, h]
  · rfl

/-- C3 counterexample: under the PAT protocol a not-supported size query
does not soft-return 0 — it trips BUG_ON and the startup path halts; a
zero-entry report likewise halts under the PAT protocol and under the
legacy protocol, contradicting the claim that both conditions soft-fail
under either protocol. -/
theorem iosapic_load_irt_not_always_soft :
    iosapic_load_irt fwPatNoSupp none = .halted ∧
    iosapic_init fwPatNoSupp = none ∧
    iosapic_load_irt fwPatZero none = .halted ∧
    iosapic_load_irt fwLegacyZero none = .halted := by
  decide

/-- C3 amended: the soft outcome (iosapic_load_irt returns 0 leaving the
table pointer untouched, and iosapic_init then clears it) happens under
the legacy protocol when the firmware reports the size query as not
supported; a not-supported size query under the PAT protocol, and a
zero-entry report under either protocol, instead trip a fatal BUG_ON
assertion and the startup path halts. -/
theorem iosapic_load_irt_soft_fail_characterization
    (fw1 fw2 fw3 fw4 : Firmware)
    (h1p : fw1.pat = false) (h1s : fw1.legacySizeStatus ≠ PDC_OK)
    (h2p : fw2.pat = true) (h2s : fw2.patSizeStatus ≠ PDC_OK)
    (h3p : fw3.pat = true) (h3s : fw3.patSizeStatus = PDC_OK) (h3z : fw3.patSize = 0)
    (h4p : fw4.pat = false) (h4s : fw4.legacySizeStatus = PDC_OK) (h4z : fw4.legacySize = 0) :
    iosapic_load_irt fw1 none = .returned 0 none false ∧
    iosapic_init fw1 = some (0, none) ∧
    iosapic_init fw2 = none ∧
    iosapic_init fw3 = none ∧
    iosapic_init fw4 = none := by
  refine ⟨?_, ?_, ?_, ?_, ?_⟩ <;>
    simp [iosapic_load_irt, iosapic_init, h1p, h1s, h2p, h2s, h3p, h3s, h3z,
          h4p, h4s, h4z]

/-- C3 witness: concrete firmware instances for the four soft-or-halt
shapes. -/
theorem iosapic_load_irt_soft_fail_characterization_witness :
    iosapic_load_irt fwLegacyNoSupp none = .returned 0 none false ∧
    iosapic_init fwLegacyNoSupp = some (0, none) ∧
    iosapic_init fwPatNoSupp = none ∧
    iosapic_init fwPatZero = none ∧
    iosapic_init fwLegacyZero = none :=
  iosapic_load_irt_soft_fail_characterization fwLegacyNoSupp fwPatNoSupp fwPatZero
    fwLegacyZero (by decide) (by decide) (by decide) (by decide) (by decide)
    (by decide) (by decide) (by decide) (by decide) (by decide)

/-- C4 counterexample: under the PAT protocol, with a successful size query
reporting one entry and a failed fill query, the load does not halt — it
only warns (WARN_ON) and still returns the table as loaded, contradicting
the claim that this case is fatal. -/
theorem iosapic_load_irt_pat_fill_failure_not_fatal :
    iosapic_load_irt fwPatFillFail none = .returned 1 (some []) true ∧
    iosapic_load_irt fwPatFillFail none ≠ .halted := by
  decide

/-- C4 amended: when the size query succeeds and the fill query fails, the
PAT path only raises a warning and returns the table as loaded; it is the
legacy path that treats a failed fill query after a successful size query
as fatal (BUG_ON halts). -/
theorem iosapic_load_irt_fill_failure_behavior (fw fw2 : Firmware)
    (hp : fw.pat = true) (hs : fw.patSizeStatus = PDC_OK) (hz : fw.patSize ≠ 0)
    (ha : fw.allocOk = true) (hf : fw.patFillStatus ≠ PDC_OK)
    (hp2 : fw2.pat = false) (hs2 : fw2.legacySizeStatus = PDC_OK)
    (hz2 : fw2.legacySize ≠ 0) (ha2 : fw2.allocOk = true)
    (hf2 : fw2.legacyFillStatus ≠ PDC_OK) :
    iosapic_load_irt fw none = .returned fw.patSize (some fw.patTable) true ∧
    iosapic_load_irt fw2 none = .halted := by
  constructor
  · simp [iosapic_load_irt, hp, hs, hz, ha, hf]
  · simp [iosapic_load_irt, hp2, hs2, hz2, ha2, hf2]

/-- C4 witness: the concrete PAT fill-failure and legacy fill-failure
firmware instances. -/
theorem iosapic_load_irt_fill_failure_behavior_witness :
    iosapic_load_irt fwPatFillFail none
      = .returned fwPatFillFail.patSize (some fwPatFillFail.patTable) true ∧
    iosapic_load_irt fwLegacyFillFail none = .halted :=
  iosapic_load_irt_fill_failure_behavior fwPatFillFail fwLegacyFillFail
    (by decide) (by decide) (by decide) (by decide) (by decide)
    (by decide) (by decide) (by decide) (by decide) (by decide)

/-- C5: for every bound VectorState (with in-range u32 txn_data and
txn_addr), iosapic_set_irt_data yields a low word equal to the allocator
message data or-ed with bit 13 (0x2000) exactly when the routing entry's
polarity field equals active-low and with bit 15 (0x8000) exactly when its
trigger field equals level-triggered; the high word equals the raw
allocator target address verbatim on PAT platforms and the repacked form
on legacy platforms; and the enable bit used by the mask operation is bit
16 (0x10000). -/
theorem iosapic_set_irt_data_encoding (pat : Bool) (vi : VectorInfo)
    (p : IrtEntry) (r0 r1 : Nat)
    (hb : vi.irte = some p) (hd : vi.txn_data < 2 ^ 32) (ha : vi.txn_addr < 2 ^ 32) :
    iosapic_set_irt_data pat vi = some
      (vi.txn_data
        ||| (if (p.polarity_trigger &&& IRT_PO_MASK) = IRT_ACTIVE_LO then 0x2000 else 0)
        ||| (if ((p.polarity_trigger >>> IRT_EL_SHIFT) &&& IRT_EL_MASK) = IRT_LEVEL_TRIG
              then 0x8000 else 0),
       if pat then vi.txn_addr
       else ((vi.txn_addr &&& 0x0ff00000) >>> 4) ||| ((vi.txn_addr &&& 0x000ff000) <<< 12)) ∧
    iosapic_mask_irq_words r0 r1 = (r0 ||| 0x10000, r1) := by
  constructor
  · simp only [iosapic_set_irt_data, hb, Nat.mod_eq_of_lt hd, Nat.mod_eq_of_lt ha,
      IOSAPIC_IRDT_PO_LOW, IOSAPIC_IRDT_LEVEL_TRIG]
    rw [Nat.lor_comm _ vi.txn_data, Nat.lor_assoc]
  · rfl

/-- C5 witness: the encoding at a concrete bound vector state (active-low,
level-triggered entry, data 0x11, address 0xfee0, PAT platform). -/
theorem iosapic_set_irt_data_encoding_witness :
    iosapic_set_irt_data true viA = some
      (viA.txn_data
        ||| (if (entA.polarity_trigger &&& IRT_PO_MASK) = IRT_ACTIVE_LO then 0x2000 else 0)
        ||| (if ((entA.polarity_trigger >>> IRT_EL_SHIFT) &&& IRT_EL_MASK) = IRT_LEVEL_TRIG
              then 0x8000 else 0),
       if true then viA.txn_addr
       else ((viA.txn_addr &&& 0x0ff00000) >>> 4) ||| ((viA.txn_addr &&& 0x000ff000) <<< 12)) ∧
    iosapic_mask_irq_words 7 9 = (7 ||| 0x10000, 9) :=
  iosapic_set_irt_data_encoding true viA entA 7 9 (by decide) (by decide) (by decide)

/-- C8: on every bound line, the unmask operation recomputes both register
words via iosapic_set_irt_data from the stored routing entry and current
target address, programs the redirection entry with exactly those words,
and then always ends with a write of the stored acknowledge data to the
stored acknowledge address — the acknowledge write is the last event of
the trace unconditionally, with no preceding pending-interrupt check. -/
theorem iosapic_unmask_irq_unconditional_eoi (pat : Bool) (vi : VectorInfo)
    (d0 d1 : Nat) (h : iosapic_set_irt_data pat vi = some (d0, d1)) :
    iosapic_unmask_irq_tr pat vi
      = some (iosapic_wr_irt_entry_tr vi.iosapic_addr vi.irqline d0 d1
              ++ [MmioEv.write vi.eoi_addr vi.eoi_data]) ∧
    (iosapic_unmask_irq_tr pat vi).map List.getLast?
      = some (some (MmioEv.write vi.eoi_addr vi.eoi_data)) := by
  have htr : iosapic_unmask_irq_tr pat vi
      = some (iosapic_wr_irt_entry_tr vi.iosapic_addr vi.irqline d0 d1
              ++ [MmioEv.write vi.eoi_addr vi.eoi_data]) := by
    simp [iosapic_unmask_irq_tr, h]
  refine ⟨htr, ?_⟩
  rw [htr]
  simp [List.getLast?_concat]

/-- C8 witness: the unmask trace of the concrete bound vector state viA. -/
theorem iosapic_unmask_irq_unconditional_eoi_witness :
    iosapic_unmask_irq_tr true viA
      = some (iosapic_wr_irt_entry_tr viA.iosapic_addr viA.irqline 0xa011 0xfee0
              ++ [MmioEv.write viA.eoi_addr viA.eoi_data]) ∧
    (iosapic_unmask_irq_tr true viA).map List.getLast?
      = some (some (MmioEv.write viA.eoi_addr viA.eoi_data)) :=
  iosapic_unmask_irq_unconditional_eoi true viA 0xa011 0xfee0 (by decide)

/-- C9: when the destination processor resolves (cpu_check_affinity is
nonnegative) on a bound line, the retarget operation writes back as low
word exactly the low word it just read — only the high word is recomputed,
so the enable, polarity and trigger bits of the low word are unchanged. -/
theorem iosapic_set_affinity_irq_preserves_low_word (pat : Bool)
    (destCpu : Int) (newTxnAddr : Nat) (vi : VectorInfo) (r0 r1 d0 d1 : Nat)
    (hcpu : 0 ≤ destCpu)
    (hdata : iosapic_set_irt_data pat { vi with txn_addr := newTxnAddr } = some (d0, d1)) :
    iosapic_set_affinity_irq pat destCpu newTxnAddr vi r0 r1
      = .ok { vi with txn_addr := newTxnAddr } r0 d1 := by
  have hlt : ¬ destCpu < 0 := not_lt.mpr hcpu
  simp [iosapic_set_affinity_irq, hlt, hdata]

/-- C9 witness: retargeting the concrete bound vector state viA to target
address 0xfff0 with read-back words (0x1a011, 0xfee0). -/
theorem iosapic_set_affinity_irq_preserves_low_word_witness :
    iosapic_set_affinity_irq true 2 0xfff0 viA 0x1a011 0xfee0
      = .ok { viA with txn_addr := 0xfff0 } 0x1a011 0xfff0 :=
  iosapic_set_affinity_irq_preserves_low_word true 2 0xfff0 viA 0x1a011 0xfee0
    0xa011 0xfff0 (by decide) (by decide)

/-- C10: the MMIO trace of iosapic_wr_irt_entry obeys the write-flush
discipline with respect to the access window: it never contains two data
writes to the window without an intervening read of the window (starting
with no write pending). -/
theorem iosapic_wr_irt_entry_flush_discipline (base line d0 d1 : Nat) :
    flushSeparated (base + IOSAPIC_REG_WINDOW)
      (iosapic_wr_irt_entry_tr base line d0 d1) false = true := by
  have hne : base + IOSAPIC_REG_SELECT ≠ base + IOSAPIC_REG_WINDOW := by
    simp [IOSAPIC_REG_SELECT, IOSAPIC_REG_WINDOW]
  simp [iosapic_wr_irt_entry_tr, iosapic_write_tr, flushSeparated, hne]

/-- C7: iosapic_xlate_pin returns none whenever the interrupt-pin byte
reads 0; for a device behind one or more bridges the lookup pin is skewed
exactly once — the effective 1-based pin satisfies pin2 - 1 =
(pin + device_number - 1) mod 4 — and the lookup slot is the slot of the
topmost bridge below the controller, which is invariant under extending
the bridge chain downward; for a device on the root bus its own slot and
unskewed pin are used. -/
theorem iosapic_xlate_pin_spec (cfg64 : Bool) (table : List IrtEntry)
    (hpa : Nat) (dev0 dev devR : PciDev) (p b : PciBus) (sd sd2 sd3 : Nat)
    (h0 : dev0.intr_pin = 0)
    (hb : dev.bus = .bridged p sd) (hp : 1 ≤ dev.intr_pin)
    (hr : devR.bus = .root) (hpR : 1 ≤ devR.intr_pin) :
    iosapic_xlate_pin cfg64 table hpa dev0 = none ∧
    iosapic_xlate_pin cfg64 table hpa dev
      = irt_find_irqline cfg64 table hpa (PCI_SLOT (hostBridgeSlotDevfn dev.bus))
          (((dev.intr_pin + PCI_SLOT dev.devfn - 1) % 4) + 1) ∧
    iosapic_xlate_pin cfg64 table hpa devR
      = irt_find_irqline cfg64 table hpa (PCI_SLOT devR.devfn) devR.intr_pin ∧
    hostBridgeSlotDevfn (.bridged (.bridged b sd2) sd3)
      = hostBridgeSlotDevfn (.bridged b sd2) := by
  have hne : dev.intr_pin ≠ 0 := by omega
  have hneR : devR.intr_pin ≠ 0 := by omega
  refine ⟨?_, ?_, ?_, ?_⟩
  · simp [iosapic_xlate_pin, h0]
  · simp [iosapic_xlate_pin, hb, hne, pci_swizzle_interrupt_pin]
  · simp [iosapic_xlate_pin, hr, hneR]
  · cases b <;> rfl

/-- C7 witness: a pinless device, a device two bridge hops deep (topmost
bridge at devfn 40), and a root-bus device, over the one-entry table. -/
theorem iosapic_xlate_pin_spec_witness :
    iosapic_xlate_pin true [entA] 0x1000 devNoPin = none ∧
    iosapic_xlate_pin true [entA] 0x1000 devBridged
      = irt_find_irqline true [entA] 0x1000
          (PCI_SLOT (hostBridgeSlotDevfn devBridged.bus))
          (((devBridged.intr_pin + PCI_SLOT devBridged.devfn - 1) % 4) + 1) ∧
    iosapic_xlate_pin true [entA] 0x1000 devA
      = irt_find_irqline true [entA] 0x1000 (PCI_SLOT devA.devfn) devA.intr_pin ∧
    hostBridgeSlotDevfn (.bridged (.bridged .root 40) 8)
      = hostBridgeSlotDevfn (.bridged .root 40) :=
  iosapic_xlate_pin_spec true [entA] 0x1000 devNoPin devBridged devA
    (.bridged .root 40) .root 8 40 8 (by decide) (by decide) (by decide)
    (by decide) (by decide)

/-- C6: on an unbound line, the first iosapic_fixup_irq call that resolves
to that line performs the binding (stores the routing entry, takes the
allocator's next processor irq with its address/data, records the EOI
pair) and returns that irq; any later call resolving to the same line —
via the same or a different routing entry and device — changes neither the
allocator nor the controller state and returns the same processor irq. -/
theorem iosapic_fixup_irq_first_binding_wins (cfg64 : Bool)
    (table : List IrtEntry) (a : TxnAlloc) (isi : IsiState) (d1 d2 : PciDev)
    (e1 e2 : IrtEntry)
    (h1 : iosapic_xlate_pin cfg64 table isi.isi_hpa d1 = some e1)
    (h2 : iosapic_xlate_pin cfg64 table isi.isi_hpa d2 = some e2)
    (hline : e2.dest_iosapic_intin = e1.dest_iosapic_intin)
    (hlen : e1.dest_iosapic_intin < isi.isi_vector.length)
    (hunbound : (isi.isi_vector.getD e1.dest_iosapic_intin viZero).irte = none)
    (halloc : 0 ≤ a.nextIrq) :
    iosapic_fixup_irq cfg64 table a isi d1
      = .done (txnBump a) (fixupBoundIsi a isi e1) a.nextIrq ∧
    iosapic_fixup_irq cfg64 table (txnBump a) (fixupBoundIsi a isi e1) d2
      = .done (txnBump a) (fixupBoundIsi a isi e1) a.nextIrq := by
  have hlt : ¬ a.nextIrq < 0 := not_lt.mpr halloc
  constructor
  · simp only [iosapic_fixup_irq, h1]
    rw [hunbound]
    simp [hlt]
  · have hhpa : (fixupBoundIsi a isi e1).isi_hpa = isi.isi_hpa := rfl
    have hget : (fixupBoundIsi a isi e1).isi_vector.getD e2.dest_iosapic_intin viZero
        = fixupBoundVi a isi e1 (isi.isi_vector.getD e1.dest_iosapic_intin viZero) := by
      show (isi.isi_vector.set e1.dest_iosapic_intin
          (fixupBoundVi a isi e1
            (isi.isi_vector.getD e1.dest_iosapic_intin viZero))).getD
          e2.dest_iosapic_intin viZero = _
      rw [hline]
      exact getD_set_self _ _ _ _ hlen
    simp only [iosapic_fixup_irq, hhpa, h2]
    rw [hget]
    simp [fixupBoundVi]

/-- C6 witness: two identical root-bus devices at slot 3 pin 2 binding line
0 of the freshly registered controller isiA, with allocator allocA. -/
theorem iosapic_fixup_irq_first_binding_wins_witness :
    iosapic_fixup_irq true [entA] allocA isiA devA
      = .done (txnBump allocA) (fixupBoundIsi allocA isiA entA) allocA.nextIrq ∧
    iosapic_fixup_irq true [entA] (txnBump allocA) (fixupBoundIsi allocA isiA entA) devA
      = .done (txnBump allocA) (fixupBoundIsi allocA isiA entA) allocA.nextIrq :=
  iosapic_fixup_irq_first_binding_wins true [entA] allocA isiA devA devA entA entA
    (by decide) (by decide) (by decide) (by decide) (by decide) (by decide)

end Iosapic
